import Mathlib

/-!
Verification of the TheGroupVTwo client against its specification.

Pure shallow embeddings of the client-side logic: the static role-based
permission table and its predicates, the environment-variable fallback for
the platform client, the auth store sign-in fallback and sign-out path,
the chat views (optimistic send, dedup on realtime echo, channel filters),
the todo status toggle, the journal author-only controls and the
delete-account sequence.
-/

namespace Rbac

/-- The two user roles. -/
inductive Role where
  | core_member
  | agency_member
  deriving Repr, DecidableEq, BEq

/-- Row shape of the users table as declared in the client. -/
structure RbacUser where
  id : String
  name : String
  email : String
  role : Role
  agency_id : Option String := none
  created_at : String
  deriving Repr, DecidableEq

/-- One entry of the permission table. -/
structure Permission where
  name : String
  description : String
  roles : List Role
  deriving Repr, DecidableEq

/-- Keys of the static permission table. -/
inductive PermissionName where
  | VIEW_DASHBOARD
  | VIEW_NOTICES
  | VIEW_TODOS
  | VIEW_GROUP_CHAT
  | VIEW_JOURNAL
  | VIEW_LOG_BOOK
  | VIEW_GROUP_ACCOUNTING
  | VIEW_AGENCY_CHAT
  | VIEW_AGENCY_ACCOUNTING
  | EDIT_PROFILE
  deriving Repr, DecidableEq, BEq

open PermissionName in
/-- The static role-to-capability table of the rbac module. -/
def PERMISSIONS : PermissionName → Permission
  | VIEW_DASHBOARD =>
      { name := "View Dashboard", description := "Access to main dashboard",
        roles := [Role.core_member, Role.agency_member] }
  | VIEW_NOTICES =>
      { name := "View Notices", description := "View announcements and notices",
        roles := [Role.core_member, Role.agency_member] }
  | VIEW_TODOS =>
      { name := "View Todos", description := "View and manage tasks",
        roles := [Role.core_member, Role.agency_member] }
  | VIEW_GROUP_CHAT =>
      { name := "View Group Chat", description := "Participate in group discussions",
        roles := [Role.core_member, Role.agency_member] }
  | VIEW_JOURNAL =>
      { name := "View Journal", description := "Access to journal entries",
        roles := [Role.core_member] }
  | VIEW_LOG_BOOK =>
      { name := "View Log Book", description := "Access to system logs",
        roles := [Role.core_member] }
  | VIEW_GROUP_ACCOUNTING =>
      { name := "View Group Accounting", description := "Manage group finances",
        roles := [Role.core_member] }
  | VIEW_AGENCY_CHAT =>
      { name := "View Agency Chat", description := "Participate in agency discussions",
        roles := [Role.core_member, Role.agency_member] }
  | VIEW_AGENCY_ACCOUNTING =>
      { name := "View Agency Accounting", description := "Manage agency finances",
        roles := [Role.core_member, Role.agency_member] }
  | EDIT_PROFILE =>
      { name := "Edit Profile", description := "Update personal information",
        roles := [Role.core_member, Role.agency_member] }

/-- Membership test of the rbac module: a missing user is always denied. -/
def hasPermission (user : Option RbacUser) (permission : PermissionName) : Bool :=
  match user with
  | none => false
  | some u => (PERMISSIONS permission).roles.contains u.role

/-- Route gate of the rbac module: a missing user is always denied. -/
def canAccessRoute (user : Option RbacUser) (route : String) : Bool :=
  match user with
  | none => false
  | some u =>
    if ["dashboard", "profile", "notices", "todos", "group-chat"].contains route then
      true
    else if ["journal", "log-book", "group-accounting"].contains route then
      u.role == Role.core_member
    else if ["agency-chat", "agency-accounting"].contains route then
      true
    else
      false

open PermissionName in
/-- The capability set the table maps to the core_member role. -/
def corePermissionNames : List PermissionName :=
  [VIEW_DASHBOARD, VIEW_NOTICES, VIEW_TODOS, VIEW_GROUP_CHAT, VIEW_JOURNAL,
   VIEW_LOG_BOOK, VIEW_GROUP_ACCOUNTING, VIEW_AGENCY_CHAT, VIEW_AGENCY_ACCOUNTING,
   EDIT_PROFILE]

open PermissionName in
/-- The capability set the table maps to the agency_member role. -/
def agencyPermissionNames : List PermissionName :=
  [VIEW_DASHBOARD, VIEW_NOTICES, VIEW_TODOS, VIEW_GROUP_CHAT, VIEW_AGENCY_CHAT,
   VIEW_AGENCY_ACCOUNTING, EDIT_PROFILE]

/-- A sample core member used to instantiate role-dependent theorems. -/
def coreUserEx : RbacUser :=
  { id := "u1", name := "Core", email := "core@example.com",
    role := Role.core_member, created_at := "t0" }

/-- A sample agency member used to instantiate role-dependent theorems. -/
def agencyUserEx : RbacUser :=
  { id := "u2", name := "Agency", email := "agency@example.com",
    role := Role.agency_member, agency_id := some "ag1", created_at := "t0" }

end Rbac

namespace Rbac

/-- C2: a core_member user is granted exactly the capability set the static
table maps to core_member, an agency_member user exactly the agency_member
set, and a null user is denied every capability and every route. -/
theorem rbac_role_sets_and_default_deny (u v : RbacUser)
    (hu : u.role = Role.core_member) (hv : v.role = Role.agency_member) :
    (∀ p, hasPermission (some u) p = corePermissionNames.contains p) ∧
    (∀ p, hasPermission (some v) p = agencyPermissionNames.contains p) ∧
    (∀ p, hasPermission none p = false) ∧
    (∀ route, canAccessRoute none route = false) := by
  refine ⟨?_, ?_, ?_, ?_⟩
  · intro p
    cases p <;>
      simp only [hasPermission, PERMISSIONS, corePermissionNames, hu,
        List.contains] <;> decide
  · intro p
    cases p <;>
      simp only [hasPermission, PERMISSIONS, agencyPermissionNames, hv,
        List.contains] <;> decide
  · intro p
    rfl
  · intro route
    rfl

/-- Witness for C2 at concrete users and a concrete capability. -/
theorem rbac_role_sets_and_default_deny_witness :
    coreUserEx.role = Role.core_member ∧ agencyUserEx.role = Role.agency_member ∧
    hasPermission (some coreUserEx) PermissionName.VIEW_JOURNAL =
      corePermissionNames.contains PermissionName.VIEW_JOURNAL ∧
    hasPermission (some agencyUserEx) PermissionName.VIEW_JOURNAL =
      agencyPermissionNames.contains PermissionName.VIEW_JOURNAL :=
  ⟨rfl, rfl,
   (rbac_role_sets_and_default_deny coreUserEx agencyUserEx rfl rfl).1
     PermissionName.VIEW_JOURNAL,
   (rbac_role_sets_and_default_deny coreUserEx agencyUserEx rfl rfl).2.1
     PermissionName.VIEW_JOURNAL⟩

end Rbac

/-- The JS includes test on strings, for a nonempty pattern: true exactly when
the pattern occurs somewhere in the string. -/
def stringContains (s pat : String) : Bool :=
  (s.splitOn pat).length > 1

namespace SupabaseLib

/-- JS falsiness of an optional environment string: missing or empty. -/
def envMissing : Option String → Bool
  | none => true
  | some s => s == ""

/-- The JS or-else fallback applied to each client constructor argument. -/
def orFallback (v : Option String) (fallback : String) : String :=
  match v with
  | none => fallback
  | some s => if s == "" then fallback else s

/-- Whether the startup validation branch logs the missing-variables error. -/
def startupErrorLogged (url key : Option String) : Bool :=
  envMissing url || envMissing key

/-- The pair of arguments the module passes to createClient. -/
def supabaseClientConfig (url key : Option String) : String × String :=
  (orFallback url "https://placeholder.supabase.co",
   orFallback key "placeholder-key")

end SupabaseLib

namespace SupabaseLib

/-- C9: when either environment variable is absent the startup error is
logged and the absent variable is replaced by its non-functional placeholder
while a present one is kept; when both are present the supplied values are
used unchanged and no startup error is logged. -/
theorem supabase_env_fallback (u k : String) (hu : u ≠ "") (hk : k ≠ "") :
    (startupErrorLogged none (some k) = true ∧
      (supabaseClientConfig none (some k)).1 = "https://placeholder.supabase.co" ∧
      (supabaseClientConfig none (some k)).2 = k) ∧
    (startupErrorLogged (some u) none = true ∧
      (supabaseClientConfig (some u) none).1 = u ∧
      (supabaseClientConfig (some u) none).2 = "placeholder-key") ∧
    (startupErrorLogged none none = true ∧
      supabaseClientConfig none none =
        ("https://placeholder.supabase.co", "placeholder-key")) ∧
    (startupErrorLogged (some u) (some k) = false ∧
      supabaseClientConfig (some u) (some k) = (u, k)) := by
  simp [startupErrorLogged, envMissing, supabaseClientConfig, orFallback, hu, hk]

/-- Witness for C9 at concrete environment values. -/
theorem supabase_env_fallback_witness :
    "https://example.supabase.co" ≠ "" ∧ "anon-key-1" ≠ "" ∧
    supabaseClientConfig (some "https://example.supabase.co") (some "anon-key-1") =
      ("https://example.supabase.co", "anon-key-1") ∧
    supabaseClientConfig none none =
      ("https://placeholder.supabase.co", "placeholder-key") :=
  ⟨by decide, by decide,
   (supabase_env_fallback "https://example.supabase.co" "anon-key-1"
     (by decide) (by decide)).2.2.2.2,
   (supabase_env_fallback "https://example.supabase.co" "anon-key-1"
     (by decide) (by decide)).2.2.1.2⟩

end SupabaseLib

namespace AuthStore

/-- The client-state slice held by the auth store. -/
structure AuthState where
  user : Option Rbac.RbacUser
  loading : Bool
  error : Option String
  initialized : Bool
  deriving Repr, DecidableEq

/-- Local-storage cleanup performed by signOut: every key containing
auth-token is removed. -/
def removeAuthTokenKeys (ls : List (String × String)) : List (String × String) :=
  ls.filter (fun kv => !(stringContains kv.1 "auth-token"))

/-- Completion time in milliseconds of the race between the remote sign-out
call and the 3000 ms timeout; none models a call that never settles. -/
def signOutCompletionTime (remote : Option Nat) : Nat :=
  match remote with
  | some t => min t 3000
  | none => 3000

/-- The signOut path: race the remote call against the timeout, clean up
local storage, then reset the store state. -/
def signOut (remote : Option Nat) (ls : List (String × String)) :
    Nat × AuthState × List (String × String) :=
  (signOutCompletionTime remote,
   { user := none, loading := false, error := none, initialized := true },
   removeAuthTokenKeys ls)

/-- The identity object returned by the auth platform on password sign-in. -/
structure AuthIdentity where
  id : String
  email : Option String
  metadataName : Option String
  metadataRole : Option String
  created_at : Option String
  deriving Repr, DecidableEq

/-- Outcome of the users-table profile fetch inside signIn. -/
inductive ProfileFetch where
  | fetchError (message : String)
  | found (profile : Rbac.RbacUser)
  | missing
  | thrown
  deriving Repr, DecidableEq

/-- The basic user object built in every signIn fallback branch: the role is
the literal core_member and the identity metadata role is ignored. -/
def basicUserFromAuth (au : AuthIdentity) (email now : String) : Rbac.RbacUser :=
  { id := au.id,
    name := au.metadataName.getD "User",
    email := au.email.getD email,
    role := Rbac.Role.core_member,
    created_at := au.created_at.getD now }

/-- Resolution of the store user by signIn after a successful password
sign-in, by case on the profile fetch outcome. -/
def signInResolveUser (au : AuthIdentity) (email now : String) :
    ProfileFetch → Rbac.RbacUser
  | ProfileFetch.fetchError _ => basicUserFromAuth au email now
  | ProfileFetch.found profile => profile
  | ProfileFetch.missing => basicUserFromAuth au email now
  | ProfileFetch.thrown => basicUserFromAuth au email now

/-- The store state set by signIn after profile resolution. -/
def signInFinalState (au : AuthIdentity) (email now : String)
    (pf : ProfileFetch) : AuthState :=
  { user := some (signInResolveUser au email now pf),
    loading := false, error := none, initialized := true }

end AuthStore

namespace AuthStore

/-- C4: signOut completes within the 3000 ms bound even when the remote call
never settles, and afterwards the user is null, loading is false, error is
null and no local-storage key containing auth-token remains. -/
theorem signOut_bounded_and_clears (remote : Option Nat)
    (ls : List (String × String)) :
    (signOut remote ls).1 ≤ 3000 ∧
    (signOut remote ls).2.1.user = none ∧
    (signOut remote ls).2.1.loading = false ∧
    (signOut remote ls).2.1.error = none ∧
    (∀ kv ∈ (signOut remote ls).2.2, stringContains kv.1 "auth-token" = false) ∧
    (signOut none ls).1 = 3000 := by
  refine ⟨?_, rfl, rfl, rfl, ?_, rfl⟩
  · cases remote with
    | none => simp [signOut, signOutCompletionTime]
    | some t => simp [signOut, signOutCompletionTime]
  · intro kv hkv
    simp only [signOut, removeAuthTokenKeys, List.mem_filter] at hkv
    simpa using hkv.2

/-- C10: whenever the profile fetch errors, finds no row, or throws, signIn
still sets a signed-in user, and that fallback user's role is the privileged
core_member value no matter what role the identity metadata holds. -/
theorem signIn_profile_fallback_grants_core (au : AuthIdentity)
    (email now msg : String) :
    ((signInFinalState au email now (ProfileFetch.fetchError msg)).user =
      some (basicUserFromAuth au email now)) ∧
    ((signInFinalState au email now ProfileFetch.missing).user =
      some (basicUserFromAuth au email now)) ∧
    ((signInFinalState au email now ProfileFetch.thrown).user =
      some (basicUserFromAuth au email now)) ∧
    (basicUserFromAuth au email now).role = Rbac.Role.core_member ∧
    (basicUserFromAuth { au with metadataRole := some "agency_member" }
      email now).role = Rbac.Role.core_member :=
  ⟨rfl, rfl, rfl, rfl, rfl⟩

end AuthStore

namespace GroupChat

/-- Row shape of the channels table as declared in the client. -/
structure Channel where
  id : String
  name : String
  type : String
  agency_id : Option String := none
  created_at : String
  deriving Repr, DecidableEq

/-- Row shape of the messages table as declared in the client. -/
structure Message where
  id : String
  channel_id : String
  sender_id : String
  content : String
  attachment_url : Option String := none
  created_at : String
  sender : Option Rbac.RbacUser := none
  deriving Repr, DecidableEq

/-- Component state of the deduplicating group-chat view: message list, the
set of already-seen message ids, the compose field, the sending flag and the
inline error. -/
structure ChatState where
  messages : List Message
  messageIds : List String
  newMessage : String
  sending : Bool
  error : Option String
  deriving Repr, DecidableEq

/-- The JS trim call on the compose field: drop whitespace from both ends. -/
def jsTrim (s : String) : String :=
  String.mk
    (((s.data.dropWhile Char.isWhitespace).reverse.dropWhile
      Char.isWhitespace).reverse)

/-- Add to the seen-id set, keeping set semantics. -/
def idSetAdd (ids : List String) (i : String) : List String :=
  if ids.contains i then ids else ids ++ [i]

/-- The locally fabricated optimistic record appended before the insert. -/
def optimisticMessage (ch : Channel) (u : Rbac.RbacUser)
    (tempId now content : String) : Message :=
  { id := tempId, channel_id := ch.id, sender_id := u.id,
    content := content, created_at := now, sender := some u }

/-- First half of sendMessage: guard, append the optimistic record, clear
the compose field, raise the sending flag, clear the error. -/
def sendMessageStart (channel : Option Channel) (user : Option Rbac.RbacUser)
    (tempId now : String) (s : ChatState) : ChatState :=
  match channel, user with
  | some ch, some u =>
    if (jsTrim s.newMessage) == "" then s
    else
      { s with
        messages := s.messages ++
          [optimisticMessage ch u tempId now (jsTrim s.newMessage)],
        newMessage := "", sending := true, error := none }
  | _, _ => s

/-- Second half of sendMessage: on success replace the optimistic record by
the returned row and record its id as seen; on failure drop the optimistic
record, put the sent text back into the compose field and set the error. -/
def sendMessageResolve (user : Option Rbac.RbacUser)
    (tempId messageContent : String) (result : Except String Message)
    (s : ChatState) : ChatState :=
  match result with
  | Except.ok data =>
    { s with
      messages := s.messages.map fun m =>
        if m.id == tempId then { data with sender := user } else m,
      messageIds := idSetAdd s.messageIds data.id,
      sending := false }
  | Except.error err =>
    { s with
      messages := s.messages.filter (fun m => m.id != tempId),
      newMessage := messageContent,
      error := some (if stringContains err "permission" then
          "You do not have permission to send messages. Please check your role."
        else
          "Failed to send message. Please try again."),
      sending := false }

/-- The whole sendMessage flow for an insert that settled with result. -/
def sendMessage (channel : Option Channel) (user : Option Rbac.RbacUser)
    (tempId now : String) (result : Except String Message)
    (s : ChatState) : ChatState :=
  match channel, user with
  | some ch, some u =>
    if (jsTrim s.newMessage) == "" then s
    else
      sendMessageResolve (some u) tempId (jsTrim s.newMessage) result
        (sendMessageStart (some ch) (some u) tempId now s)
  | _, _ => s

/-- The realtime insert callback plus fetchSenderInfo: skip ids already
seen, otherwise record the id, resolve the sender, and append unless an
entry with the same id is already in the list. -/
def subscriptionDeliver (senderLookup : String → Option Rbac.RbacUser)
    (msg : Message) (s : ChatState) : ChatState :=
  if s.messageIds.contains msg.id then s
  else
    let ids := idSetAdd s.messageIds msg.id
    let withSender :=
      match senderLookup msg.sender_id with
      | some sender => { msg with sender := some sender }
      | none => msg
    if s.messages.any (fun m => m.id == msg.id) then
      { s with messageIds := ids }
    else
      { s with messageIds := ids, messages := s.messages ++ [withSender] }

/-- Sample chat user for concrete instantiations. -/
def chatUserEx : Rbac.RbacUser :=
  { id := "u9", name := "Sender", email := "sender@example.com",
    role := Rbac.Role.core_member, created_at := "t0" }

/-- Sample group channel for concrete instantiations. -/
def channelEx : Channel :=
  { id := "c1", name := "Group Chat", type := "group", created_at := "t0" }

/-- Sample initial chat state with a nonempty draft. -/
def chatStateEx : ChatState :=
  { messages := [], messageIds := [], newMessage := "hello",
    sending := false, error := none }

/-- Sample server row returned by the insert. -/
def dataMsgEx : Message :=
  { id := "m1", channel_id := "c1", sender_id := "u9", content := "hello",
    created_at := "t1" }

/-- Sample initial chat state whose draft carries surrounding whitespace. -/
def draftStateEx : ChatState :=
  { messages := [], messageIds := [], newMessage := " hi ",
    sending := false, error := none }

/-- Adding an id to the seen set makes it contained. -/
theorem idSetAdd_contains (ids : List String) (i : String) :
    (idSetAdd ids i).contains i = true := by
  unfold idSetAdd
  split
  · assumption
  · simp

/-- Replacing by temp id is the identity on a list free of that id. -/
theorem map_replace_of_fresh (l : List Message) (tempId : String) (r : Message)
    (h : ∀ m ∈ l, m.id ≠ tempId) :
    (l.map fun m => if m.id == tempId then r else m) = l := by
  induction l with
  | nil => rfl
  | cons a t ih =>
    have ha : a.id ≠ tempId := h a (List.mem_cons_self a t)
    rw [List.map_cons, if_neg (by simpa using ha),
      ih fun m hm => h m (List.mem_cons_of_mem a hm)]

/-- Dropping a temp id is the identity on a list free of that id. -/
theorem filter_ne_of_fresh (l : List Message) (tempId : String)
    (h : ∀ m ∈ l, m.id ≠ tempId) :
    l.filter (fun m => m.id != tempId) = l := by
  induction l with
  | nil => rfl
  | cons a t ih =>
    have ha : (a.id != tempId) = true := by
      simpa using h a (List.mem_cons_self a t)
    simp [List.filter_cons, ha, ih fun m hm => h m (List.mem_cons_of_mem a hm)]

/-- C1: a successful send first appends the optimistic record to the list,
and once the realtime subscription delivers the server copy of the same
message the list holds exactly one entry with that message id. -/
theorem chat_optimistic_send_dedup (ch : Channel) (u : Rbac.RbacUser)
    (tempId now : String) (data echo : Message)
    (lookup : String → Option Rbac.RbacUser) (s : ChatState)
    (hne : (jsTrim s.newMessage) ≠ "")
    (hfresh : ∀ m ∈ s.messages, m.id ≠ tempId ∧ m.id ≠ data.id)
    (hecho : echo.id = data.id) :
    (sendMessageStart (some ch) (some u) tempId now s).messages =
      s.messages ++ [optimisticMessage ch u tempId now (jsTrim s.newMessage)] ∧
    ((subscriptionDeliver lookup echo
        (sendMessageResolve (some u) tempId (jsTrim s.newMessage)
          (Except.ok data)
          (sendMessageStart (some ch) (some u) tempId now s))).messages.countP
      fun m => m.id == data.id) = 1 := by
  have hguard : ((jsTrim s.newMessage) == "") = false := by simpa using hne
  have hstart : sendMessageStart (some ch) (some u) tempId now s =
      { s with
        messages := s.messages ++
          [optimisticMessage ch u tempId now (jsTrim s.newMessage)],
        newMessage := "", sending := true, error := none } := by
    simp [sendMessageStart, hguard]
  refine ⟨by rw [hstart], ?_⟩
  have hresolve : sendMessageResolve (some u) tempId (jsTrim s.newMessage)
      (Except.ok data) (sendMessageStart (some ch) (some u) tempId now s) =
      { s with
        messages := s.messages ++ [{ data with sender := some u }],
        messageIds := idSetAdd s.messageIds data.id,
        newMessage := "", sending := false, error := none } := by
    rw [hstart]
    simp only [sendMessageResolve, List.map_append]
    rw [map_replace_of_fresh s.messages tempId { data with sender := some u }
      (fun m hm => (hfresh m hm).1)]
    simp [optimisticMessage]
  rw [hresolve]
  have hseen : (idSetAdd s.messageIds data.id).contains echo.id = true := by
    rw [hecho]; exact idSetAdd_contains s.messageIds data.id
  have hdeliver : subscriptionDeliver lookup echo
      { s with
        messages := s.messages ++ [{ data with sender := some u }],
        messageIds := idSetAdd s.messageIds data.id,
        newMessage := "", sending := false, error := none } =
      { s with
        messages := s.messages ++ [{ data with sender := some u }],
        messageIds := idSetAdd s.messageIds data.id,
        newMessage := "", sending := false, error := none } := by
    unfold subscriptionDeliver
    split
    · rfl
    next hcond => exact absurd hseen hcond
  rw [hdeliver]
  rw [List.countP_append]
  have h0 : s.messages.countP (fun m => m.id == data.id) = 0 :=
    List.countP_eq_zero.mpr (fun m hm => by simpa using (hfresh m hm).2)
  simp [h0]

/-- Witness for C1 at a concrete empty chat and a concrete send. -/
theorem chat_optimistic_send_dedup_witness :
    (jsTrim chatStateEx.newMessage) ≠ "" ∧
    ((subscriptionDeliver (fun _ => none) dataMsgEx
        (sendMessageResolve (some chatUserEx) "temp-1" (jsTrim chatStateEx.newMessage)
          (Except.ok dataMsgEx)
          (sendMessageStart (some channelEx) (some chatUserEx) "temp-1" "t0"
            chatStateEx))).messages.countP
      fun m => m.id == dataMsgEx.id) = 1 :=
  ⟨by decide,
   (chat_optimistic_send_dedup channelEx chatUserEx "temp-1" "t0" dataMsgEx
     dataMsgEx (fun _ => none) chatStateEx (by decide)
     (by intro m hm; simp [chatStateEx] at hm) rfl).2⟩

/-- C3 amended: a failed send removes the optimistic record, restoring the
message list, and puts the trimmed text that was sent back into the compose
field; the error is surfaced. The draft equals its exact pre-send value only
when it carried no surrounding whitespace. -/
theorem chat_send_failure_rollback (ch : Channel) (u : Rbac.RbacUser)
    (tempId now err : String) (s : ChatState)
    (hne : (jsTrim s.newMessage) ≠ "")
    (hfresh : ∀ m ∈ s.messages, m.id ≠ tempId) :
    (sendMessage (some ch) (some u) tempId now (Except.error err) s).messages =
      s.messages ∧
    (sendMessage (some ch) (some u) tempId now (Except.error err) s).newMessage =
      (jsTrim s.newMessage) ∧
    (sendMessage (some ch) (some u) tempId now
      (Except.error err) s).error.isSome = true := by
  have hguard : ((jsTrim s.newMessage) == "") = false := by simpa using hne
  have hmain : sendMessage (some ch) (some u) tempId now (Except.error err) s =
      sendMessageResolve (some u) tempId (jsTrim s.newMessage) (Except.error err)
        (sendMessageStart (some ch) (some u) tempId now s) := by
    simp [sendMessage, hguard]
  have hstart : sendMessageStart (some ch) (some u) tempId now s =
      { s with
        messages := s.messages ++
          [optimisticMessage ch u tempId now (jsTrim s.newMessage)],
        newMessage := "", sending := true, error := none } := by
    simp [sendMessageStart, hguard]
  rw [hmain, hstart]
  simp only [sendMessageResolve, List.filter_append]
  rw [filter_ne_of_fresh s.messages tempId hfresh]
  simp [optimisticMessage]

/-- Witness for the amended C3 at a concrete draft without whitespace. -/
theorem chat_send_failure_rollback_witness :
    (jsTrim chatStateEx.newMessage) ≠ "" ∧
    (sendMessage (some channelEx) (some chatUserEx) "temp-1" "t0"
      (Except.error "boom") chatStateEx).messages = chatStateEx.messages ∧
    (sendMessage (some channelEx) (some chatUserEx) "temp-1" "t0"
      (Except.error "boom") chatStateEx).newMessage =
      (jsTrim chatStateEx.newMessage) :=
  ⟨by decide,
   (chat_send_failure_rollback channelEx chatUserEx "temp-1" "t0" "boom"
     chatStateEx (by decide) (by intro m hm; simp [chatStateEx] at hm)).1,
   (chat_send_failure_rollback channelEx chatUserEx "temp-1" "t0" "boom"
     chatStateEx (by decide) (by intro m hm; simp [chatStateEx] at hm)).2.1⟩

/-- C3 counterexample: with the draft holding surrounding whitespace, the
compose field after a failed send differs from its pre-send value, so the
draft state is not exactly as it was before the send was attempted. -/
theorem chat_send_failure_draft_counterexample :
    draftStateEx.newMessage = " hi " ∧
    (sendMessage (some channelEx) (some chatUserEx) "temp-1" "t0"
      (Except.error "boom") draftStateEx).newMessage ≠
      draftStateEx.newMessage := by
  constructor
  · rfl
  · decide

end GroupChat

namespace AgencyChat

/-- The channel-id value the agency view filters its message query on: the
fabricated string agency-agencyId, not the id of the channel it resolved. -/
def messagesQueryChannelFilter (agencyId : String) : String :=
  "agency-" ++ agencyId

/-- The realtime subscription filter string built by the agency view. -/
def subscriptionFilter (agencyId : String) : String :=
  "channel_id=eq.agency-" ++ agencyId

/-- The channel id the agency view inserts new messages with. -/
def sendInsertChannelId (ch : GroupChat.Channel) : String :=
  ch.id

/-- From the spec: the subscription filter each chat view is specified to
use, keyed by the identifier of the channel it resolved. -/
def specSubscriptionFilter (ch : GroupChat.Channel) : String :=
  "channel_id=eq." ++ ch.id

/-- From the spec: the message-query channel filter each chat view is
specified to use, the identifier of the channel it resolved. -/
def specMessagesQueryChannelFilter (ch : GroupChat.Channel) : String :=
  ch.id

/-- A resolved agency channel row: ids are platform-generated uuids, never
of the form agency-agencyId. -/
def agencyChannelEx : GroupChat.Channel :=
  { id := "7f0c0a1e-0000-4000-8000-000000000001", name := "Agency A",
    type := "agency", agency_id := some "ag-1", created_at := "t0" }

/-- C5: at a concrete resolved agency channel, the message query and the
subscription of the agency chat view filter on the fabricated string built
from the agency id, which differs from the resolved channel identifier
required by the spec, while the same view inserts sends with the resolved
channel identifier. -/
theorem agency_chat_filter_mismatch :
    messagesQueryChannelFilter "ag-1" ≠
      specMessagesQueryChannelFilter agencyChannelEx ∧
    subscriptionFilter "ag-1" ≠ specSubscriptionFilter agencyChannelEx ∧
    sendInsertChannelId agencyChannelEx =
      specMessagesQueryChannelFilter agencyChannelEx := by
  refine ⟨by decide, by decide, rfl⟩

end AgencyChat

namespace Todos

/-- Row shape of the todos table as declared in the client. -/
structure Todo where
  id : String
  title : String
  description : String
  assigned_to : String
  agency_id : Option String := none
  due_date : String
  status : String
  created_at : String
  deriving Repr, DecidableEq

/-- The update handleStatusChange issues: set the status field of the row
with the matching id. -/
def handleStatusChange (todos : List Todo) (todoId newStatus : String) :
    List Todo :=
  todos.map fun t => if t.id == todoId then { t with status := newStatus } else t

/-- The target status the toggle button passes to handleStatusChange. -/
def toggleTargetStatus (t : Todo) : String :=
  if t.status == "completed" then "pending" else "completed"

/-- C6: the toggle only ever writes the values pending or completed, the
status update touches no row other than the target and writes nothing but
the requested status, and repeating the update with the same target status
leaves the stored state unchanged. -/
theorem todo_status_two_values_and_idempotent (todos : List Todo) (t : Todo)
    (todoId newStatus : String) :
    (toggleTargetStatus t = "pending" ∨ toggleTargetStatus t = "completed") ∧
    (∀ t2 ∈ handleStatusChange todos todoId newStatus,
      t2.status = newStatus ∨ t2 ∈ todos) ∧
    handleStatusChange (handleStatusChange todos todoId newStatus) todoId
        newStatus =
      handleStatusChange todos todoId newStatus := by
  refine ⟨?_, ?_, ?_⟩
  · unfold toggleTargetStatus
    split
    · exact Or.inl rfl
    · exact Or.inr rfl
  · intro t2 ht2
    unfold handleStatusChange at ht2
    rw [List.mem_map] at ht2
    obtain ⟨a, ha, rfl⟩ := ht2
    by_cases hid : (a.id == todoId) = true
    · rw [if_pos hid]
      exact Or.inl rfl
    · rw [if_neg hid]
      exact Or.inr ha
  · unfold handleStatusChange
    rw [List.map_map]
    apply List.map_congr_left
    intro a _
    by_cases hid : (a.id == todoId) = true
    · simp only [Function.comp_apply, if_pos hid]
    · simp only [Function.comp_apply, if_neg hid]

end Todos

namespace Journal

/-- Row shape of the journal_entries table as declared in the client. -/
structure JournalEntry where
  id : String
  title : String
  content : String
  author_id : String
  created_at : String
  author : Option Rbac.RbacUser := none
  deriving Repr, DecidableEq

/-- The render condition of the edit and delete controls of an entry: the
strict equality of the entry author id with the viewing user id, false for
a null viewer. -/
def showsEditDeleteControls (user : Option Rbac.RbacUser)
    (entry : JournalEntry) : Bool :=
  match user with
  | some u => entry.author_id == u.id
  | none => false

/-- C7: the edit and delete controls of a journal entry are rendered exactly
when the viewing user exists and its identifier equals the entry author
identifier; every other viewer sees no controls. -/
theorem journal_controls_author_only (viewer : Option Rbac.RbacUser)
    (entry : JournalEntry) :
    showsEditDeleteControls viewer entry = true ↔
      ∃ u, viewer = some u ∧ entry.author_id = u.id := by
  cases viewer with
  | none => simp [showsEditDeleteControls]
  | some u => simp [showsEditDeleteControls]

end Journal

namespace Settings

/-- Observable outcome of the delete-account sequence. -/
structure DeleteAccountOutcome where
  profileDeleted : Bool
  authDeleted : Bool
  signedOut : Bool
  redirected : Bool
  errorMessage : Option String
  deriving Repr, DecidableEq

/-- handleDeleteAccount: guard on user and confirmation, then the sequential
best-effort steps, stopping at the first failing step with an error message
and no rollback of earlier steps; each step argument is none for success or
some message for the platform error. -/
def handleDeleteAccount (user : Option Rbac.RbacUser) (confirmed : Bool)
    (profileDeleteError : Option String) (authDeleteError : Option String) :
    DeleteAccountOutcome :=
  match user with
  | none =>
    { profileDeleted := false, authDeleted := false, signedOut := false,
      redirected := false, errorMessage := none }
  | some _ =>
    if !confirmed then
      { profileDeleted := false, authDeleted := false, signedOut := false,
        redirected := false, errorMessage := none }
    else
      match profileDeleteError with
      | some _ =>
        { profileDeleted := false, authDeleted := false, signedOut := false,
          redirected := false,
          errorMessage := some "Failed to delete account. Please try again." }
      | none =>
        match authDeleteError with
        | some _ =>
          { profileDeleted := true, authDeleted := false, signedOut := false,
            redirected := false,
            errorMessage := some "Failed to delete account. Please try again." }
        | none =>
          { profileDeleted := true, authDeleted := true, signedOut := true,
            redirected := true, errorMessage := none }

/-- C8: when the profile row deletion succeeds and the auth-identity
deletion fails, the already-deleted profile row stays deleted, no later step
runs, nothing is rolled back and the operation merely reports an error;
when every step succeeds the full sequence runs. -/
theorem delete_account_partial_failure_no_rollback (u : Rbac.RbacUser)
    (err : String) :
    (handleDeleteAccount (some u) true none (some err)).profileDeleted = true ∧
    (handleDeleteAccount (some u) true none (some err)).authDeleted = false ∧
    (handleDeleteAccount (some u) true none (some err)).signedOut = false ∧
    (handleDeleteAccount (some u) true none (some err)).redirected = false ∧
    (handleDeleteAccount (some u) true none (some err)).errorMessage.isSome =
      true ∧
    handleDeleteAccount (some u) true none none =
      { profileDeleted := true, authDeleted := true, signedOut := true,
        redirected := true, errorMessage := none } :=
  ⟨rfl, rfl, rfl, rfl, rfl, rfl⟩

end Settings
